import Mathlib

/-
Shallow embedding of the test-session core of the `zeroTohero` NEET test
platform.

The Test Session Controller lives in
`neet-test-frontend/src/pages/TestInterface.jsx`; the countdown timer is the
`Timer` component; the results view is `TestResults.jsx`.  React `useState`
variables are modelled as fields of an explicit state record.  Within one
event-handler run, `useState` setters are deferred (the closure keeps reading
the values from the start of the event) while `useRef` writes are immediate;
the definitions below thread state explicitly following that discipline.
Side effects that matter to the specification (toast messages, the submission
network call, navigation) are returned as an explicit list of actions.
-/

namespace NeetTest

/-- One entry of the `answers` object of `TestInterface.jsx`: the record built
by `handleAnswerSelect` and the records the submission payload is made of. -/
structure AnswerRec where
  question_id : String
  answer : String
  time_taken : Nat
deriving DecidableEq, Repr

/-- The identifier-bearing part of a question object as the controller uses
it.  A missing JS field is modelled as the empty string, which is falsy. -/
structure Question where
  question_id : String
  id : String
deriving DecidableEq, Repr

/-- JS `question.question_id || question.id`: the empty string is falsy, so
the fallback `id` is used exactly when `question_id` is empty. -/
def getQid (q : Question) : String :=
  if q.question_id = "" then q.id else q.question_id

/-- Tags for the distinct toast messages of `TestInterface.jsx` (the literal
strings are irrelevant to the claims; distinctness is what matters). -/
inductive ToastMsg where
  | firstWarning
  | finalWarning
  | autoSubmitViolation
  | timeUpAuto
  | pleaseAnswer
  | submitSuccess
  | submitFailedServer
  | submitFailedNet
  | autoSubmitLocalFallback
deriving DecidableEq, Repr

/-- Observable effects of the controller handlers, in program order. -/
inductive Action where
  | toastError (m : ToastMsg)
  | toastSuccess (m : ToastMsg)
  | submitCall (payload : List AnswerRec)
  | dispatchResults
  | navigateToResults
deriving DecidableEq, Repr

/-- The controller state of `TestInterface.jsx`: the `useState` variables
`answers`, `currentQuestionIndex`, `timeUp`, `testSubmitted`, `warningCount`,
`isSubmitting`, the `useRef` cell `submissionStartedRef`, and the (immutable
once loaded) question list. -/
structure ControllerState where
  questions : List Question
  answers : List AnswerRec
  currentQuestionIndex : Nat
  timeUp : Bool
  testSubmitted : Bool
  warningCount : Nat
  isSubmitting : Bool
  submissionStartedRef : Bool
deriving DecidableEq, Repr

/-- Lookup in the `answers` object by question id. -/
def lookupAnswer (l : List AnswerRec) (qid : String) : Option AnswerRec :=
  l.find? (fun a => a.question_id == qid)

/-- JS object spread-update `{...prev, [qid]: rec}`: an existing key is
overwritten in place, a new key is appended. -/
def upsertAnswer (l : List AnswerRec) (rec : AnswerRec) : List AnswerRec :=
  if l.any (fun a => a.question_id == rec.question_id) then
    l.map (fun a => if a.question_id == rec.question_id then rec else a)
  else
    l ++ [rec]

/-- `handleAnswerSelect` (TestInterface.jsx lines 126-136): upserts the answer
for the current question.  `timeTaken` stands for the wall-clock expression
`Math.floor((Date.now() - testStartTime) / 1000)`.  The handler reads
`currentQuestion = questions[currentQuestionIndex]`; the out-of-range case
(never reached behind the render guard) is modelled as leaving the state
unchanged.  Note the code has no guard on `testSubmitted` or `isSubmitting`. -/
def handleAnswerSelect (s : ControllerState) (optionKey : String)
    (timeTaken : Nat) : ControllerState :=
  match s.questions[s.currentQuestionIndex]? with
  | none => s
  | some q =>
    { s with answers := upsertAnswer s.answers ⟨getQid q, optionKey, timeTaken⟩ }

/-- `handleNext` (lines 149-153): advance the cursor unless on the last
question. -/
def handleNext (s : ControllerState) : ControllerState :=
  if s.currentQuestionIndex < s.questions.length - 1 then
    { s with currentQuestionIndex := s.currentQuestionIndex + 1 }
  else s

/-- `handlePrevious` (lines 155-159): move the cursor back unless on the
first question. -/
def handlePrevious (s : ControllerState) : ControllerState :=
  if s.currentQuestionIndex > 0 then
    { s with currentQuestionIndex := s.currentQuestionIndex - 1 }
  else s

/-- `handleQuestionJump` (lines 161-163): sets the cursor to the given index
with no range check of any kind. -/
def handleQuestionJump (s : ControllerState) (index : Nat) : ControllerState :=
  { s with currentQuestionIndex := index }

/-- The per-question entry of the submission payload: the recorded answer if
present, otherwise an empty-selection entry with `time_taken` 0
(lines 205-220). -/
def buildAnswersArray (questions : List Question) (answers : List AnswerRec) :
    List AnswerRec :=
  questions.map (fun q =>
    match lookupAnswer answers (getQid q) with
    | some a => a
    | none => ⟨getQid q, "", 0⟩)

/-- Synchronous prefix of `handleSubmitTest` (lines 179-227), up to the
`await` of the network call: the duplicate-submission guard, the
manual-submit checks, the synchronous setting of `submissionStartedRef` and
`isSubmitting`, building the payload, and issuing the submission call.
`confirmed` stands for the return value of the `window.confirm` dialog shown
for manual submits. -/
def handleSubmitTest (autoSubmit confirmed : Bool) (s : ControllerState) :
    ControllerState × List Action :=
  if s.isSubmitting || s.testSubmitted || s.submissionStartedRef then
    (s, [])
  else if !autoSubmit && s.answers.length == 0 then
    (s, [Action.toastError ToastMsg.pleaseAnswer])
  else if !autoSubmit && !confirmed then
    (s, [])
  else
    ({ s with submissionStartedRef := true, isSubmitting := true },
     [Action.submitCall (buildAnswersArray s.questions s.answers)])

/-- Outcome of the awaited `testAPI.submitTest` call. -/
inductive SubmitOutcome where
  | ok
  | serverFail
  | netError
deriving DecidableEq, Repr

/-- Continuation of `handleSubmitTest` after the `await` (lines 229-255):
`ok` is `response.data.success`, `serverFail` a response with
`success: false`, `netError` a thrown transport error.  On `serverFail` the
flags are rolled back for every reason; on `netError` they are rolled back
only for manual submits, while auto-submits mark the test submitted and
navigate to the results view anyway. -/
def handleSubmitResponse (autoSubmit : Bool) (outcome : SubmitOutcome)
    (s : ControllerState) : ControllerState × List Action :=
  match outcome with
  | SubmitOutcome.ok =>
    ({ s with testSubmitted := true },
     [Action.dispatchResults, Action.toastSuccess ToastMsg.submitSuccess,
      Action.navigateToResults])
  | SubmitOutcome.serverFail =>
    ({ s with isSubmitting := false, submissionStartedRef := false },
     [Action.toastError ToastMsg.submitFailedServer])
  | SubmitOutcome.netError =>
    if autoSubmit then
      ({ s with testSubmitted := true },
       [Action.toastError ToastMsg.autoSubmitLocalFallback,
        Action.navigateToResults])
    else
      ({ s with isSubmitting := false, submissionStartedRef := false },
       [Action.toastError ToastMsg.submitFailedNet])

/-- `handleTimeUp` (lines 165-177): its own latch guard, then
`setTimeUp(true)`, `setIsSubmitting(true)` (deferred React updates) and a
nested call of `handleSubmitTest(true)` whose closure still reads the old
`isSubmitting`/`testSubmitted` values while the ref is read live. -/
def handleTimeUp (s : ControllerState) : ControllerState × List Action :=
  if s.timeUp || s.isSubmitting || s.testSubmitted || s.submissionStartedRef then
    (s, [])
  else
    let res := handleSubmitTest true true s
    ({ res.1 with timeUp := true, isSubmitting := true },
     Action.toastError ToastMsg.timeUpAuto :: res.2)

/-- `handleVisibilityChange` (lines 82-96) on a focus-loss event
(`document.hidden` true): guarded by `!isSubmitting && !testSubmitted`
(the surrounding `useEffect` also detaches the listener under the same
condition), it increments the warning counter, toasts the first or final
warning at counts 1 and 2, and above `MAX_WARNINGS = 2` force-submits via
`handleSubmitTest(true)`.  `handleBlur` (lines 98-113) is the same logic. -/
def handleVisibilityChange (s : ControllerState) : ControllerState × List Action :=
  if s.isSubmitting || s.testSubmitted then
    (s, [])
  else
    let n := s.warningCount + 1
    let s1 := { s with warningCount := n }
    if n = 1 then
      (s1, [Action.toastError ToastMsg.firstWarning])
    else if n = 2 then
      (s1, [Action.toastError ToastMsg.finalWarning])
    else if n > 2 then
      let res := handleSubmitTest true true s1
      (res.1, Action.toastError ToastMsg.autoSubmitViolation :: res.2)
    else
      (s1, [])

/-- The submit-trigger events of one session: a manual click of the submit
button (with the outcome of its confirm dialog), the timer firing time-up,
and a window focus-loss. -/
inductive Ev where
  | manualClick (confirmed : Bool)
  | timeUpFire
  | focusLoss
deriving DecidableEq, Repr

/-- Dispatch one event to its handler. -/
def step (s : ControllerState) (e : Ev) : ControllerState × List Action :=
  match e with
  | Ev.manualClick c => handleSubmitTest false c s
  | Ev.timeUpFire => handleTimeUp s
  | Ev.focusLoss => handleVisibilityChange s

/-- Process a list of events on the single-threaded event loop, accumulating
the emitted actions in order. -/
def run (s : ControllerState) : List Ev → ControllerState × List Action
  | [] => (s, [])
  | e :: rest =>
    let r1 := step s e
    let r2 := run r1.1 rest
    (r2.1, r1.2 ++ r2.2)

/-- Number of submission network calls in an action list. -/
def countSubmitCalls (l : List Action) : Nat :=
  l.countP (fun a => match a with | Action.submitCall _ => true | _ => false)

/-- State of the `Timer` component (Timer.jsx): the `timeLeft` `useState`
value and the `timeUpCalledRef` latch.  `timeLeft` is an integer so that
non-negativity is a property of the code, not of the type. -/
structure TimerState where
  timeLeft : Int
  timeUpCalled : Bool
deriving DecidableEq, Repr

/-- Mounting the timer, and equally the reset effect that runs when the
`duration` prop changes: `setTimeLeft(duration)` and clearing the latch. -/
def initTimer (d : Int) : TimerState := ⟨d, false⟩

/-- One `setInterval` tick of the timer (Timer.jsx lines 11-21): the second
component reports whether this tick invoked `onTimeUp`. -/
def tick (s : TimerState) : TimerState × Bool :=
  if s.timeLeft ≤ 1 && !s.timeUpCalled then
    (⟨0, true⟩, true)
  else if s.timeLeft ≤ 1 then
    ({ s with timeLeft := 0 }, false)
  else
    ({ s with timeLeft := s.timeLeft - 1 }, false)

/-- Run `n` ticks, counting how many of them fired `onTimeUp`. -/
def ticks (s : TimerState) : Nat → TimerState × Nat
  | 0 => (s, 0)
  | n + 1 =>
    let r1 := tick s
    let r2 := ticks r1.1 n
    (r2.1, (if r1.2 then 1 else 0) + r2.2)

/-- Classification of one submitted answer against the correct option label:
empty selection is not attempted, a matching label is correct, anything else
is wrong. -/
inductive AnswerClass where
  | correct
  | wrong
  | notAttempted
deriving DecidableEq, Repr

/-- Modelled from the spec: the per-question rule of the Scoring Engine
(spec 4.4); the engine itself lives in the Flask backend
(`neet-test-backend`), which is not among the source files. -/
def classify (correctLabel selected : String) : AnswerClass :=
  if selected = "" then AnswerClass.notAttempted
  else if selected = correctLabel then AnswerClass.correct
  else AnswerClass.wrong

/-- The aggregate result of the Scoring Engine, as displayed by
`TestResults.jsx`. -/
structure TestResult where
  correct : Nat
  wrong : Nat
  notAttempted : Nat
  rawScore : Int
  maxScore : Int
  percentage : Rat
  grade : String
deriving DecidableEq, Repr

/-- Modelled from the spec: the grade bands of the Scoring Engine (spec 4.4,
inclusive lower bounds), implemented in the missing backend. -/
def gradeOf (pct : Rat) : String :=
  if 90 ≤ pct then "Excellent"
  else if 75 ≤ pct then "Good"
  else if 60 ≤ pct then "Average"
  else if 40 ≤ pct then "Below Average"
  else "Poor"

/-- Modelled from the spec: the Scoring Engine `score(questions, answers)`
(spec 4.4), a pure function of the list of (correct option label, selected
label) pairs; the implementation is in the Flask backend, absent from the
sources.  `raw_score = 4*correct - 1*wrong` with no floor;
`percentage = max(raw_score, 0) / (questions.length * 4) * 100`. -/
def scoreTest (pairs : List (String × String)) : TestResult :=
  let cls := pairs.map (fun p => classify p.1 p.2)
  let c := cls.count AnswerClass.correct
  let w := cls.count AnswerClass.wrong
  let na := cls.count AnswerClass.notAttempted
  let raw : Int := 4 * (c : Int) - (w : Int)
  let maxS : Int := 4 * (pairs.length : Int)
  let pct : Rat := ((max raw 0 : Int) : Rat) / ((maxS : Int) : Rat) * 100
  { correct := c, wrong := w, notAttempted := na, rawScore := raw,
    maxScore := maxS, percentage := pct, grade := gradeOf pct }

/-! ## Lemmas about the answers map -/

theorem lookupAnswer_id (l : List AnswerRec) (qid : String) (a : AnswerRec)
    (h : lookupAnswer l qid = some a) : a.question_id = qid := by
  unfold lookupAnswer at h
  have hp := List.find?_some h
  simpa using hp

theorem lookupAnswer_map_replace (l : List AnswerRec) (rec : AnswerRec)
    (q : String) (hq : q ≠ rec.question_id) :
    lookupAnswer
        (l.map (fun a => if a.question_id == rec.question_id then rec else a))
        q = lookupAnswer l q := by
  induction l with
  | nil => rfl
  | cons a l ih =>
    simp only [List.map_cons]
    unfold lookupAnswer at ih ⊢
    by_cases hm : a.question_id = rec.question_id
    · rw [if_pos (by simp [hm]),
        List.find?_cons_of_neg _ (by simp [Ne.symm hq]),
        List.find?_cons_of_neg _ (by simp [hm, Ne.symm hq])]
      exact ih
    · rw [if_neg (by simp [hm])]
      by_cases haq : a.question_id = q
      · rw [List.find?_cons_of_pos _ (by simp [haq]),
          List.find?_cons_of_pos _ (by simp [haq])]
      · rw [List.find?_cons_of_neg _ (by simp [haq]),
          List.find?_cons_of_neg _ (by simp [haq])]
        exact ih

theorem lookupAnswer_map_replace_self (l : List AnswerRec) (rec : AnswerRec)
    (hany : l.any (fun a => a.question_id == rec.question_id) = true) :
    lookupAnswer
        (l.map (fun a => if a.question_id == rec.question_id then rec else a))
        rec.question_id = some rec := by
  induction l with
  | nil => simp at hany
  | cons a l ih =>
    simp only [List.map_cons]
    unfold lookupAnswer at ih ⊢
    by_cases hm : a.question_id = rec.question_id
    · rw [if_pos (by simp [hm]), List.find?_cons_of_pos _ (by simp)]
    · have hpa : (a.question_id == rec.question_id) = false := by simp [hm]
      have hany2 : l.any (fun x => x.question_id == rec.question_id) = true := by
        rw [List.any_cons, hpa, Bool.false_or] at hany
        exact hany
      rw [if_neg (by simp [hm]), List.find?_cons_of_neg _ (by simp [hm])]
      exact ih hany2

theorem lookupAnswer_append_new (l : List AnswerRec) (rec : AnswerRec)
    (q : String)
    (hany : l.any (fun a => a.question_id == rec.question_id) = false) :
    lookupAnswer (l ++ [rec]) q =
      if q = rec.question_id then some rec else lookupAnswer l q := by
  unfold lookupAnswer
  rw [List.find?_append]
  by_cases hq : q = rec.question_id
  · have hnone : l.find? (fun a => a.question_id == q) = none := by
      rw [List.find?_eq_none]
      intro x hx hpx
      have hx2 : (x.question_id == rec.question_id) = true := by
        have hxq : x.question_id = q := by simpa using hpx
        simp [hxq, hq]
      have hl : l.any (fun a => a.question_id == rec.question_id) = true :=
        List.any_eq_true.mpr ⟨x, hx, hx2⟩
      rw [hl] at hany
      simp at hany
    rw [hnone, if_pos hq]
    simp [hq]
  · have h1 : ([rec].find? fun a => a.question_id == q) = none := by
      simp [Ne.symm hq]
    rw [h1, if_neg hq]
    cases l.find? (fun a => a.question_id == q) <;> rfl

theorem lookupAnswer_upsert (l : List AnswerRec) (rec : AnswerRec) (q : String) :
    lookupAnswer (upsertAnswer l rec) q =
      if q = rec.question_id then some rec else lookupAnswer l q := by
  unfold upsertAnswer
  split
  · rename_i hany
    by_cases hq : q = rec.question_id
    · subst hq
      rw [lookupAnswer_map_replace_self l rec hany, if_pos rfl]
    · rw [lookupAnswer_map_replace l rec q hq, if_neg hq]
  · rename_i hany
    exact lookupAnswer_append_new l rec q (by simpa using hany)

/-! ## C7: selectAnswer semantics -/

/-- C7 counterexample: the claim says selectAnswer is a no-op after the
session is submitted, but `handleAnswerSelect` has no guard on
`testSubmitted`; on a submitted session with no answers, selecting option A
for the current question still mutates the answer collection. -/
theorem selectAnswer_after_submit_counterexample :
    (⟨[⟨"", "q1"⟩], [], 0, false, true, 0, false, false⟩ :
        ControllerState).testSubmitted = true ∧
    (handleAnswerSelect
        ⟨[⟨"", "q1"⟩], [], 0, false, true, 0, false, false⟩ "A" 0).answers ≠
      (⟨[⟨"", "q1"⟩], [], 0, false, true, 0, false, false⟩ :
        ControllerState).answers := by
  decide

theorem handleAnswerSelect_in_range (s : ControllerState) (k : String)
    (t : Nat) (h : s.currentQuestionIndex < s.questions.length) :
    handleAnswerSelect s k t =
      { s with answers := (upsertAnswer s.answers
          (AnswerRec.mk (getQid s.questions[s.currentQuestionIndex]) k t)) } := by
  unfold handleAnswerSelect
  rw [List.getElem?_eq_getElem h]

/-- C7 (amended): `handleAnswerSelect` upserts the Answer for the current
question with overwrite semantics (re-selecting replaces the prior choice),
leaves every other answer and all non-answer state unchanged, and raises no
error; it behaves this way regardless of `testSubmitted`/`isSubmitting`, so a
late select after submission still mutates the local answer collection. -/
theorem selectAnswer_upsert_overwrite (s : ControllerState) (k1 k2 : String)
    (t1 t2 : Nat) (h : s.currentQuestionIndex < s.questions.length) :
    lookupAnswer (handleAnswerSelect s k1 t1).answers
        (getQid s.questions[s.currentQuestionIndex]) =
      some (AnswerRec.mk (getQid s.questions[s.currentQuestionIndex]) k1 t1) ∧
    lookupAnswer (handleAnswerSelect (handleAnswerSelect s k1 t1) k2 t2).answers
        (getQid s.questions[s.currentQuestionIndex]) =
      some (AnswerRec.mk (getQid s.questions[s.currentQuestionIndex]) k2 t2) ∧
    (∀ q, q ≠ getQid s.questions[s.currentQuestionIndex] →
      lookupAnswer (handleAnswerSelect s k1 t1).answers q =
        lookupAnswer s.answers q) ∧
    (handleAnswerSelect s k1 t1).questions = s.questions ∧
    (handleAnswerSelect s k1 t1).currentQuestionIndex = s.currentQuestionIndex ∧
    (handleAnswerSelect s k1 t1).testSubmitted = s.testSubmitted ∧
    (handleAnswerSelect s k1 t1).isSubmitting = s.isSubmitting ∧
    (handleAnswerSelect s k1 t1).submissionStartedRef = s.submissionStartedRef ∧
    (handleAnswerSelect s k1 t1).timeUp = s.timeUp ∧
    (handleAnswerSelect s k1 t1).warningCount = s.warningCount := by
  have e1 := handleAnswerSelect_in_range s k1 t1 h
  have e2 : handleAnswerSelect (handleAnswerSelect s k1 t1) k2 t2 =
      { s with answers :=
          (upsertAnswer
            (upsertAnswer s.answers
              (AnswerRec.mk (getQid s.questions[s.currentQuestionIndex]) k1 t1))
            (AnswerRec.mk (getQid s.questions[s.currentQuestionIndex]) k2 t2)) } := by
    rw [e1]
    exact handleAnswerSelect_in_range
      { s with answers := (upsertAnswer s.answers
          (AnswerRec.mk (getQid s.questions[s.currentQuestionIndex]) k1 t1)) }
      k2 t2 h
  rw [e2, e1]
  refine ⟨?_, ?_, ?_, rfl, rfl, rfl, rfl, rfl, rfl, rfl⟩
  · rw [lookupAnswer_upsert]
    simp
  · rw [lookupAnswer_upsert]
    simp
  · intro q hqne
    rw [lookupAnswer_upsert]
    simp [hqne]

/-! ## C8: navigation -/

/-- C8 counterexample: the claim says out-of-range indices are clamped into
bounds, but `handleQuestionJump` performs no clamping: jumping to index 5 on
a 3-question session leaves the cursor at 5, out of range. -/
theorem navigate_no_clamp_counterexample :
    (handleQuestionJump
        ⟨[⟨"", "q1"⟩, ⟨"", "q2"⟩, ⟨"", "q3"⟩], [], 0, false, false, 0, false,
          false⟩ 5).currentQuestionIndex = 5 ∧
    ¬(handleQuestionJump
        ⟨[⟨"", "q1"⟩, ⟨"", "q2"⟩, ⟨"", "q3"⟩], [], 0, false, false, 0, false,
          false⟩ 5).currentQuestionIndex <
      (⟨[⟨"", "q1"⟩, ⟨"", "q2"⟩, ⟨"", "q3"⟩], [], 0, false, false, 0, false,
          false⟩ : ControllerState).questions.length := by
  decide

/-- C8 (amended): navigation moves only the question cursor — the answer
collection is untouched by `handleQuestionJump`, `handleNext` and
`handlePrevious`, and the guarded `handleNext`/`handlePrevious` keep an
in-bounds cursor in bounds — but `handleQuestionJump` performs no clamping:
it stores the requested index as-is, so an out-of-range index yields an
out-of-range cursor (without raising an error). -/
theorem navigate_cursor_only (s : ControllerState) (i : Nat)
    (hin : s.currentQuestionIndex < s.questions.length) :
    (handleQuestionJump s i).answers = s.answers ∧
    (handleQuestionJump s i).questions = s.questions ∧
    (handleQuestionJump s i).currentQuestionIndex = i ∧
    (handleNext s).answers = s.answers ∧
    (handlePrevious s).answers = s.answers ∧
    (handleNext s).currentQuestionIndex < s.questions.length ∧
    (handlePrevious s).currentQuestionIndex < s.questions.length := by
  unfold handleQuestionJump handleNext handlePrevious
  refine ⟨rfl, rfl, rfl, ?_, ?_, ?_, ?_⟩
  · split <;> rfl
  · split <;> rfl
  · split
    · rename_i hlt
      show s.currentQuestionIndex + 1 < s.questions.length
      omega
    · exact hin
  · split
    · rename_i hgt
      show s.currentQuestionIndex - 1 < s.questions.length
      omega
    · exact hin

/-! ## C2: the submission payload -/

/-- C2: on a question set with pairwise-distinct identifiers, the payload the
submit handler sends has exactly one entry per question, in question order,
with no duplicate identifiers; an unanswered question contributes an
empty-selection entry with time 0, an answered one contributes the recorded
answer. -/
theorem submission_payload_complete (s : ControllerState)
    (h1 : s.isSubmitting = false) (h2 : s.testSubmitted = false)
    (h3 : s.submissionStartedRef = false)
    (hq : (s.questions.map getQid).Nodup) :
    (handleSubmitTest true true s).2 =
      [Action.submitCall (buildAnswersArray s.questions s.answers)] ∧
    (buildAnswersArray s.questions s.answers).length = s.questions.length ∧
    (buildAnswersArray s.questions s.answers).map (fun a => a.question_id) =
      s.questions.map getQid ∧
    ((buildAnswersArray s.questions s.answers).map
      (fun a => a.question_id)).Nodup ∧
    (∀ (i : Nat) (q : Question), s.questions[i]? = some q →
      lookupAnswer s.answers (getQid q) = none →
      (buildAnswersArray s.questions s.answers)[i]? =
        some (AnswerRec.mk (getQid q) "" 0)) ∧
    (∀ (i : Nat) (q : Question) (a : AnswerRec), s.questions[i]? = some q →
      lookupAnswer s.answers (getQid q) = some a →
      (buildAnswersArray s.questions s.answers)[i]? = some a) := by
  have hids : (buildAnswersArray s.questions s.answers).map
      (fun a => a.question_id) = s.questions.map getQid := by
    unfold buildAnswersArray
    rw [List.map_map]
    apply List.map_congr_left
    intro q hqmem
    simp only [Function.comp_apply]
    cases hl : lookupAnswer s.answers (getQid q) with
    | none => rfl
    | some a => exact lookupAnswer_id _ _ _ hl
  refine ⟨?_, ?_, hids, ?_, ?_, ?_⟩
  · unfold handleSubmitTest
    simp [h1, h2, h3]
  · unfold buildAnswersArray
    exact List.length_map _ _
  · rw [hids]
    exact hq
  · intro i q hgi hnone
    unfold buildAnswersArray
    rw [List.getElem?_map, hgi]
    simp [hnone]
  · intro i q a hgi hsome
    unfold buildAnswersArray
    rw [List.getElem?_map, hgi]
    simp [hsome]

/-! ## C6: manual submit with zero answers -/

/-- C6: with no recorded answers, a manual submit only toasts the
validation message and changes nothing — no payload is sent, the submission
flags stay clear, and the session stays in progress — while an auto submit
(timeout or forced violation) is exempt and proceeds with an all-empty
payload. -/
theorem manual_submit_zero_answers (s : ControllerState) (c : Bool)
    (h1 : s.isSubmitting = false) (h2 : s.testSubmitted = false)
    (h3 : s.submissionStartedRef = false) (ha : s.answers = []) :
    handleSubmitTest false c s = (s, [Action.toastError ToastMsg.pleaseAnswer]) ∧
    (handleSubmitTest true c s).2 =
      [Action.submitCall
        (s.questions.map (fun q => AnswerRec.mk (getQid q) "" 0))] ∧
    (handleSubmitTest true c s).1.testSubmitted = false ∧
    (handleSubmitTest true c s).1.submissionStartedRef = true ∧
    (handleSubmitTest true c s).1.isSubmitting = true := by
  have hb : buildAnswersArray s.questions [] =
      s.questions.map (fun q => AnswerRec.mk (getQid q) "" 0) := by
    unfold buildAnswersArray lookupAnswer
    simp
  unfold handleSubmitTest
  simp [h1, h2, h3, ha, hb]

/-! ## C3: submission-failure handling -/

/-- C3 counterexample: the claim says a timeout/violation submit never rolls
the flag back and always reaches the submitted state with a result view, but
on a server response with `success: false` the code rolls both flags back
for auto submits too, leaves the session un-submitted, and shows no result
view (only an error toast). -/
theorem forced_submit_serverfail_counterexample :
    (handleSubmitResponse true SubmitOutcome.serverFail
        ⟨[⟨"", "q1"⟩], [], 0, false, false, 0, true, true⟩).1.submissionStartedRef
      = false ∧
    (handleSubmitResponse true SubmitOutcome.serverFail
        ⟨[⟨"", "q1"⟩], [], 0, false, false, 0, true, true⟩).1.testSubmitted
      = false ∧
    (handleSubmitResponse true SubmitOutcome.serverFail
        ⟨[⟨"", "q1"⟩], [], 0, false, false, 0, true, true⟩).2 =
      [Action.toastError ToastMsg.submitFailedServer] := by
  decide

/-- C3 (amended): submission failure never leaves the session ambiguous, but
the terminal-result guarantee for forced submits holds only for transport
errors: a successful response, or a transport error during an auto submit,
reaches the submitted state with a result view; a server response with
`success: false` (any reason) or a transport error on a manual submit rolls
both submission flags back and leaves the session in progress for retry. -/
theorem submit_failure_never_ambiguous (auto : Bool) (o : SubmitOutcome)
    (s : ControllerState) (h : s.testSubmitted = false) :
    (((handleSubmitResponse auto o s).1.testSubmitted = true ∧
        Action.navigateToResults ∈ (handleSubmitResponse auto o s).2) ∨
      ((handleSubmitResponse auto o s).1.testSubmitted = false ∧
        (handleSubmitResponse auto o s).1.isSubmitting = false ∧
        (handleSubmitResponse auto o s).1.submissionStartedRef = false)) ∧
    (o = SubmitOutcome.ok ∨ (o = SubmitOutcome.netError ∧ auto = true) →
      (handleSubmitResponse auto o s).1.testSubmitted = true ∧
      Action.navigateToResults ∈ (handleSubmitResponse auto o s).2) ∧
    (o = SubmitOutcome.serverFail ∨
        (o = SubmitOutcome.netError ∧ auto = false) →
      (handleSubmitResponse auto o s).1 =
        { s with isSubmitting := false, submissionStartedRef := false }) := by
  cases o <;> cases auto <;> simp [handleSubmitResponse, h]

/-! ## Timer lemmas (C5, C10) -/

theorem tick_zero_latched (b : Bool) :
    tick ⟨0, true⟩ = (⟨0, true⟩, false) ∧
      (tick ⟨0, b⟩).1.timeLeft = 0 := by
  cases b <;> simp [tick]

theorem ticks_zero_latched (n : Nat) : ticks ⟨0, true⟩ n = (⟨0, true⟩, 0) := by
  induction n with
  | zero => rfl
  | succ n ih =>
    simp only [ticks, (tick_zero_latched true).1, ih]
    simp

theorem ticks_initTimer (n : Nat) : ∀ d : Int, 1 ≤ d →
    ticks (initTimer d) n =
      (if d ≤ (n : Int) then (⟨0, true⟩ : TimerState) else ⟨d - n, false⟩,
       if d ≤ (n : Int) then 1 else 0) := by
  induction n with
  | zero =>
    intro d hd
    have hle : ¬ d ≤ (0 : Int) := by omega
    simp only [ticks, initTimer, Nat.cast_zero]
    rw [if_neg hle, if_neg hle]
    simp
  | succ n ih =>
    intro d hd
    by_cases h1 : d = 1
    · subst h1
      have ht : tick (initTimer 1) = (⟨0, true⟩, true) := by
        simp [tick, initTimer]
      simp only [ticks, ht, ticks_zero_latched]
      push_cast
      have hle : (1 : Int) ≤ (n : Int) + 1 := by omega
      rw [if_pos hle, if_pos hle]
    · have hgt : ¬ d ≤ (1 : Int) := by omega
      have ht : tick (initTimer d) = (initTimer (d - 1), false) := by
        simp [tick, initTimer, hgt]
      have ihd := ih (d - 1) (by omega)
      simp only [ticks, ht, ihd]
      push_cast
      by_cases hc : d - 1 ≤ (n : Int)
      · have hc2 : d ≤ (n : Int) + 1 := by omega
        rw [if_pos hc, if_pos hc, if_pos hc2, if_pos hc2]
      · have hc2 : ¬ d ≤ (n : Int) + 1 := by omega
        rw [if_neg hc, if_neg hc, if_neg hc2, if_neg hc2]
        simp only [Prod.mk.injEq, TimerState.mk.injEq]
        refine ⟨⟨by ring, trivial⟩, by simp⟩

/-- C5: for every duration `d ≥ 1` the timer fires the time-up callback
exactly once: over any number `n` of ticks the fire count is 1 once `n ≥ d`
and 0 before, so no number of extra ticks after reaching zero produces a
second invocation; with duration 1 the counter reaches 0 and fires on the
first tick; re-initialising with a new duration clears the latch. -/
theorem timer_fires_exactly_once (d : Int) (hd : 1 ≤ d) :
    (∀ n : Nat, (ticks (initTimer d) n).2 =
      if d ≤ (n : Int) then 1 else 0) ∧
    (ticks (initTimer 1) 1).1.timeLeft = 0 ∧
    (ticks (initTimer 1) 1).2 = 1 ∧
    (∀ d2 : Int, (initTimer d2).timeUpCalled = false) := by
  refine ⟨?_, by decide, by decide, fun d2 => rfl⟩
  intro n
  rw [ticks_initTimer n d hd]

theorem tick_nonneg (s : TimerState) (h : 0 ≤ s.timeLeft) :
    0 ≤ (tick s).1.timeLeft := by
  by_cases hc : s.timeLeft ≤ 1
  · cases hb : s.timeUpCalled <;> simp [tick, hc, hb]
  · simp only [tick, hc]
    simp [hc]
    omega

theorem tick_decrement (s : TimerState) (h : 0 ≤ s.timeLeft) :
    (tick s).1.timeLeft = s.timeLeft - 1 ∨
      ((tick s).1.timeLeft = 0 ∧ s.timeLeft = 0) := by
  by_cases hc : s.timeLeft ≤ 1
  · have h01 : s.timeLeft = 0 ∨ s.timeLeft = 1 := by omega
    rcases h01 with h0 | hone
    · right
      refine ⟨?_, h0⟩
      cases hb : s.timeUpCalled <;> simp [tick, hc, hb]
    · left
      cases hb : s.timeUpCalled <;> simp [tick, hc, hb, hone]
  · left
    simp [tick, hc]

theorem ticks_nonneg (n : Nat) : ∀ s : TimerState, 0 ≤ s.timeLeft →
    0 ≤ (ticks s n).1.timeLeft := by
  induction n with
  | zero =>
    intro s h
    simpa [ticks] using h
  | succ n ih =>
    intro s h
    simp only [ticks]
    exact ih _ (tick_nonneg s h)

theorem ticks_zero_stays (m : Nat) : ∀ s : TimerState, s.timeLeft = 0 →
    (ticks s m).1.timeLeft = 0 := by
  induction m with
  | zero =>
    intro s h
    simpa [ticks] using h
  | succ m ih =>
    intro s h
    simp only [ticks]
    apply ih
    cases hb : s.timeUpCalled <;> simp [tick, h, hb]

/-- C10: the remaining time is a non-negative invariant: from any duration
`d ≥ 0`, after any number of ticks `timeLeft` is non-negative, the next tick
either decrements it by one or holds it at zero, and once it is zero every
further tick leaves it at zero. -/
theorem timer_timeleft_invariant (d : Int) (hd : 0 ≤ d) (n : Nat) :
    0 ≤ (ticks (initTimer d) n).1.timeLeft ∧
    ((tick (ticks (initTimer d) n).1).1.timeLeft =
        (ticks (initTimer d) n).1.timeLeft - 1 ∨
      ((tick (ticks (initTimer d) n).1).1.timeLeft = 0 ∧
        (ticks (initTimer d) n).1.timeLeft = 0)) ∧
    ((ticks (initTimer d) n).1.timeLeft = 0 →
      ∀ m : Nat, (ticks (ticks (initTimer d) n).1 m).1.timeLeft = 0) := by
  have hn := ticks_nonneg n (initTimer d) (by simpa [initTimer] using hd)
  exact ⟨hn, tick_decrement _ hn, fun h0 m => ticks_zero_stays m _ h0⟩

/-! ## C9: scoring -/

theorem scoreTest_percentage_nonneg (pairs : List (String × String)) :
    0 ≤ (scoreTest pairs).percentage := by
  have hp : (scoreTest pairs).percentage =
      ((max (scoreTest pairs).rawScore 0 : Int) : Rat) /
        ((4 * (pairs.length : Int) : Int) : Rat) * 100 := rfl
  rw [hp]
  apply mul_nonneg _ (by norm_num)
  apply div_nonneg
  · exact_mod_cast le_max_right _ _
  · have : (0 : Int) ≤ 4 * (pairs.length : Int) := by positivity
    exact_mod_cast this

/-- C9: for every answer sheet the raw score is `4*correct - wrong` with no
floor (it can go negative), the maximum score is `4*K`, the percentage is
`max(raw, 0) / (4*K) * 100` and hence never negative; on 10 questions all
answered wrong the raw score is -10 while the percentage is clamped to 0 and
the grade is Poor. -/
theorem scoring_raw_and_percentage (pairs : List (String × String)) :
    (scoreTest pairs).rawScore =
      4 * ((scoreTest pairs).correct : Int) - ((scoreTest pairs).wrong : Int) ∧
    (scoreTest pairs).maxScore = 4 * (pairs.length : Int) ∧
    (scoreTest pairs).percentage =
      ((max (scoreTest pairs).rawScore 0 : Int) : Rat) /
        ((4 * (pairs.length : Int) : Int) : Rat) * 100 ∧
    0 ≤ (scoreTest pairs).percentage ∧
    (scoreTest (List.replicate 10 ("A", "B"))).rawScore = -10 ∧
    (scoreTest (List.replicate 10 ("A", "B"))).percentage = 0 ∧
    (scoreTest (List.replicate 10 ("A", "B"))).grade = "Poor" := by
  have hraw10 : (scoreTest (List.replicate 10 ("A", "B"))).rawScore = -10 := by
    decide
  have hlen : (((List.replicate 10 ("A", "B")).length : Nat) : Int) = 10 := by
    simp
  have hpeq : (scoreTest (List.replicate 10 ("A", "B"))).percentage =
      ((max (scoreTest (List.replicate 10 ("A", "B"))).rawScore 0 : Int) : Rat) /
        ((4 * ((List.replicate 10 ("A", "B")).length : Int) : Int) : Rat) *
        100 := rfl
  have hp10 : (scoreTest (List.replicate 10 ("A", "B"))).percentage = 0 := by
    rw [hpeq, hraw10, hlen]
    norm_num
  have hgeq : (scoreTest (List.replicate 10 ("A", "B"))).grade =
      gradeOf (scoreTest (List.replicate 10 ("A", "B"))).percentage := rfl
  have hg10 : (scoreTest (List.replicate 10 ("A", "B"))).grade = "Poor" := by
    rw [hgeq, hp10]
    norm_num [gradeOf]
  exact ⟨rfl, rfl, rfl, scoreTest_percentage_nonneg pairs, hraw10, hp10, hg10⟩

/-! ## Event-trace lemmas (C1, C4) -/

theorem countSubmitCalls_append (l1 l2 : List Action) :
    countSubmitCalls (l1 ++ l2) = countSubmitCalls l1 + countSubmitCalls l2 := by
  unfold countSubmitCalls
  exact List.countP_append _ _ _

theorem run_cons (s : ControllerState) (e : Ev) (rest : List Ev) :
    run s (e :: rest) =
      ((run (step s e).1 rest).1, (step s e).2 ++ (run (step s e).1 rest).2) :=
  rfl

theorem step_frozen (s : ControllerState) (e : Ev)
    (h1 : s.submissionStartedRef = true) (h2 : s.isSubmitting = true) :
    step s e = (s, []) := by
  cases e <;>
    simp [step, handleSubmitTest, handleTimeUp, handleVisibilityChange, h1, h2]

theorem run_frozen (evs : List Ev) (s : ControllerState)
    (h1 : s.submissionStartedRef = true) (h2 : s.isSubmitting = true) :
    run s evs = (s, []) := by
  induction evs with
  | nil => rfl
  | cons e rest ih =>
    rw [run_cons, step_frozen s e h1 h2]
    simp [ih]

theorem step_call_flags (s : ControllerState) (e : Ev) :
    (countSubmitCalls (step s e).2 = 0 ∧
      (step s e).1.submissionStartedRef = s.submissionStartedRef ∧
      (step s e).1.isSubmitting = s.isSubmitting) ∨
    (countSubmitCalls (step s e).2 = 1 ∧
      (step s e).1.submissionStartedRef = true ∧
      (step s e).1.isSubmitting = true) := by
  cases e with
  | manualClick c =>
    simp only [step, handleSubmitTest]
    split
    · left
      exact ⟨rfl, rfl, rfl⟩
    · split
      · left
        exact ⟨rfl, rfl, rfl⟩
      · split
        · left
          exact ⟨rfl, rfl, rfl⟩
        · right
          exact ⟨rfl, rfl, rfl⟩
  | timeUpFire =>
    simp only [step, handleTimeUp]
    split
    · left
      exact ⟨rfl, rfl, rfl⟩
    · rename_i hg
      have hcond : (s.isSubmitting || s.testSubmitted ||
          s.submissionStartedRef) = false := by
        revert hg
        cases s.timeUp <;> cases s.isSubmitting <;> cases s.testSubmitted <;>
          cases s.submissionStartedRef <;> simp
      right
      simp [handleSubmitTest, hcond, countSubmitCalls]
  | focusLoss =>
    simp only [step, handleVisibilityChange]
    split
    · left
      exact ⟨rfl, rfl, rfl⟩
    · rename_i hg
      have h1 : s.isSubmitting = false := by
        revert hg
        cases s.isSubmitting <;> simp
      have h2 : s.testSubmitted = false := by
        revert hg
        cases s.isSubmitting <;> cases s.testSubmitted <;> simp
      split
      · left
        exact ⟨rfl, rfl, rfl⟩
      · split
        · left
          exact ⟨rfl, rfl, rfl⟩
        · split
          · by_cases hr : s.submissionStartedRef = true
            · left
              simp [handleSubmitTest, h1, h2, hr, countSubmitCalls]
            · right
              have hr2 : s.submissionStartedRef = false := by
                revert hr
                cases s.submissionStartedRef <;> simp
              simp [handleSubmitTest, h1, h2, hr2, countSubmitCalls]
          · left
            exact ⟨rfl, rfl, rfl⟩

theorem step_inv (s : ControllerState) (e : Ev)
    (hinv : s.submissionStartedRef = true → s.isSubmitting = true) :
    (step s e).1.submissionStartedRef = true →
      (step s e).1.isSubmitting = true := by
  rcases step_call_flags s e with ⟨_, hr, hi⟩ | ⟨_, hr, hi⟩
  · intro h
    rw [hi]
    exact hinv (hr ▸ h)
  · intro _
    exact hi

theorem run_calls (evs : List Ev) : ∀ s : ControllerState,
    (s.submissionStartedRef = true → s.isSubmitting = true) →
    countSubmitCalls (run s evs).2 ≤ 1 ∧
    ((run s evs).1.submissionStartedRef = true →
      (run s evs).1.isSubmitting = true) := by
  induction evs with
  | nil =>
    intro s hinv
    exact ⟨by simp [run, countSubmitCalls], hinv⟩
  | cons e rest ih =>
    intro s hinv
    rcases step_call_flags s e with ⟨hc, hr, hi⟩ | ⟨hc, hr, hi⟩
    · obtain ⟨ih1, ih2⟩ := ih (step s e).1 (step_inv s e hinv)
      constructor
      · rw [run_cons, countSubmitCalls_append, hc]
        simpa using ih1
      · rw [run_cons]
        exact ih2
    · have hfroz := run_frozen rest (step s e).1 hr hi
      constructor
      · rw [run_cons, countSubmitCalls_append, hc, hfroz]
        simp [countSubmitCalls]
      · rw [run_cons, hfroz]
        intro _
        exact hi

/-- C1: from a session that has not yet begun submitting, any sequence of
submit triggers (manual clicks, timer fires, focus-loss violations) issues at
most one submission call; once the submission flag is set, every further
trigger is a complete no-op. -/
theorem submit_at_most_once (s : ControllerState) (evs : List Ev)
    (h1 : s.isSubmitting = false) (h2 : s.testSubmitted = false)
    (h3 : s.submissionStartedRef = false) :
    countSubmitCalls (run s evs).2 ≤ 1 ∧
    ((run s evs).1.submissionStartedRef = true →
      ∀ e : Ev, step (run s evs).1 e = ((run s evs).1, [])) := by
  have hinv : s.submissionStartedRef = true → s.isSubmitting = true := by
    rw [h3]
    intro hx
    simp at hx
  obtain ⟨hle, hinv2⟩ := run_calls evs s hinv
  exact ⟨hle, fun hr e => step_frozen _ e hr (hinv2 hr)⟩

theorem run_append (l1 l2 : List Ev) : ∀ s : ControllerState,
    run s (l1 ++ l2) =
      ((run (run s l1).1 l2).1, (run s l1).2 ++ (run (run s l1).1 l2).2) := by
  induction l1 with
  | nil =>
    intro s
    simp [run]
  | cons e rest ih =>
    intro s
    rw [List.cons_append, run_cons, ih (step s e).1, run_cons]
    simp [List.append_assoc]

/-- C4: the violation monitor is the threshold machine the spec describes:
starting from a clean in-progress session, the first focus-loss sets the
counter to 1 and emits only the first warning (session still un-submitted),
the second sets it to 2 and emits only the final warning, the third triggers
exactly one forced submission, and since that submission sets `isSubmitting`,
every later focus-loss is ignored — the run is frozen at its state after
three events — and in general the handler is a no-op whenever a submission
is in progress. -/
theorem violation_threshold_machine (s : ControllerState)
    (hw : s.warningCount = 0) (h1 : s.isSubmitting = false)
    (h2 : s.testSubmitted = false) (h3 : s.submissionStartedRef = false) :
    run s (List.replicate 1 Ev.focusLoss) =
      ({ s with warningCount := 1 },
       [Action.toastError ToastMsg.firstWarning]) ∧
    (run s (List.replicate 1 Ev.focusLoss)).1.testSubmitted = false ∧
    run s (List.replicate 2 Ev.focusLoss) =
      ({ s with warningCount := 2 },
       [Action.toastError ToastMsg.firstWarning,
        Action.toastError ToastMsg.finalWarning]) ∧
    run s (List.replicate 3 Ev.focusLoss) =
      ({ s with warningCount := 3, isSubmitting := true, submissionStartedRef := true },
       [Action.toastError ToastMsg.firstWarning,
        Action.toastError ToastMsg.finalWarning,
        Action.toastError ToastMsg.autoSubmitViolation,
        Action.submitCall (buildAnswersArray s.questions s.answers)]) ∧
    countSubmitCalls (run s (List.replicate 3 Ev.focusLoss)).2 = 1 ∧
    (∀ n : Nat, 3 ≤ n →
      run s (List.replicate n Ev.focusLoss) =
        run s (List.replicate 3 Ev.focusLoss)) ∧
    (∀ t : ControllerState, t.isSubmitting = true →
      handleVisibilityChange t = (t, [])) := by
  have e1 : step s Ev.focusLoss =
      ({ s with warningCount := 1 },
       [Action.toastError ToastMsg.firstWarning]) := by
    simp [step, handleVisibilityChange, h1, h2, hw]
  have e2 : step { s with warningCount := 1 } Ev.focusLoss =
      ({ s with warningCount := 2 },
       [Action.toastError ToastMsg.finalWarning]) := by
    simp [step, handleVisibilityChange, h1, h2]
  have e3 : step { s with warningCount := 2 } Ev.focusLoss =
      ({ s with warningCount := 3, isSubmitting := true, submissionStartedRef := true },
       [Action.toastError ToastMsg.autoSubmitViolation,
        Action.submitCall (buildAnswersArray s.questions s.answers)]) := by
    simp [step, handleVisibilityChange, handleSubmitTest, h1, h2, h3]
  have hrep1 : List.replicate 1 Ev.focusLoss = [Ev.focusLoss] := rfl
  have hrep2 : List.replicate 2 Ev.focusLoss =
      [Ev.focusLoss, Ev.focusLoss] := rfl
  have hrep3 : List.replicate 3 Ev.focusLoss =
      [Ev.focusLoss, Ev.focusLoss, Ev.focusLoss] := rfl
  have hr1 : run s (List.replicate 1 Ev.focusLoss) =
      ({ s with warningCount := 1 },
       [Action.toastError ToastMsg.firstWarning]) := by
    rw [hrep1, run_cons, e1]
    simp [run]
  have hr2 : run s (List.replicate 2 Ev.focusLoss) =
      ({ s with warningCount := 2 },
       [Action.toastError ToastMsg.firstWarning,
        Action.toastError ToastMsg.finalWarning]) := by
    rw [hrep2, run_cons, e1]
    simp only [run_cons, e2]
    simp [run]
  have hr3 : run s (List.replicate 3 Ev.focusLoss) =
      ({ s with warningCount := 3, isSubmitting := true, submissionStartedRef := true },
       [Action.toastError ToastMsg.firstWarning,
        Action.toastError ToastMsg.finalWarning,
        Action.toastError ToastMsg.autoSubmitViolation,
        Action.submitCall (buildAnswersArray s.questions s.answers)]) := by
    rw [hrep3, run_cons, e1]
    simp only [run_cons, e2, e3]
    simp [run]
  refine ⟨hr1, by rw [hr1]; exact h2, hr2, hr3, ?_, ?_, ?_⟩
  · rw [hr3]
    simp [countSubmitCalls]
  · intro n hn
    obtain ⟨k, rfl⟩ := Nat.exists_eq_add_of_le hn
    rw [List.replicate_add, run_append, hr3,
      run_frozen (List.replicate k Ev.focusLoss) _ rfl rfl]
    simp
  · intro t ht
    simp [handleVisibilityChange, ht]

/-! ## Concrete fixtures for witnesses -/

def wq1 : Question := ⟨"", "q1"⟩

def wq2 : Question := ⟨"", "q2"⟩

/-- A clean in-progress two-question session with one recorded answer. -/
def wstate : ControllerState :=
  ⟨[wq1, wq2], [⟨"q1", "A", 5⟩], 0, false, false, 0, false, false⟩

/-- A clean in-progress two-question session with no recorded answers. -/
def wempty : ControllerState :=
  ⟨[wq1, wq2], [], 0, false, false, 0, false, false⟩

/-- The trigger trace used by the C1 witness. -/
def wtrace : List Ev := [Ev.timeUpFire, Ev.manualClick true, Ev.focusLoss]

theorem submit_at_most_once_witness :
    wstate.isSubmitting = false ∧ wstate.testSubmitted = false ∧
    wstate.submissionStartedRef = false ∧
    (countSubmitCalls (run wstate wtrace).2 ≤ 1 ∧
      ((run wstate wtrace).1.submissionStartedRef = true →
        ∀ e : Ev, step (run wstate wtrace).1 e = ((run wstate wtrace).1, []))) :=
  ⟨rfl, rfl, rfl, submit_at_most_once wstate wtrace rfl rfl rfl⟩

theorem submission_payload_complete_witness :
    wstate.isSubmitting = false ∧ wstate.testSubmitted = false ∧
    wstate.submissionStartedRef = false ∧
    (wstate.questions.map getQid).Nodup ∧
    ((handleSubmitTest true true wstate).2 =
      [Action.submitCall (buildAnswersArray wstate.questions wstate.answers)] ∧
    (buildAnswersArray wstate.questions wstate.answers).length =
      wstate.questions.length ∧
    (buildAnswersArray wstate.questions wstate.answers).map
      (fun a => a.question_id) = wstate.questions.map getQid ∧
    ((buildAnswersArray wstate.questions wstate.answers).map
      (fun a => a.question_id)).Nodup ∧
    (∀ (i : Nat) (q : Question), wstate.questions[i]? = some q →
      lookupAnswer wstate.answers (getQid q) = none →
      (buildAnswersArray wstate.questions wstate.answers)[i]? =
        some (AnswerRec.mk (getQid q) "" 0)) ∧
    (∀ (i : Nat) (q : Question) (a : AnswerRec),
      wstate.questions[i]? = some q →
      lookupAnswer wstate.answers (getQid q) = some a →
      (buildAnswersArray wstate.questions wstate.answers)[i]? = some a)) :=
  ⟨rfl, rfl, rfl, by decide,
    submission_payload_complete wstate rfl rfl rfl (by decide)⟩

theorem submit_failure_never_ambiguous_witness :
    wstate.testSubmitted = false ∧
    ((((handleSubmitResponse true SubmitOutcome.netError
          wstate).1.testSubmitted = true ∧
        Action.navigateToResults ∈
          (handleSubmitResponse true SubmitOutcome.netError wstate).2) ∨
      ((handleSubmitResponse true SubmitOutcome.netError
          wstate).1.testSubmitted = false ∧
        (handleSubmitResponse true SubmitOutcome.netError
          wstate).1.isSubmitting = false ∧
        (handleSubmitResponse true SubmitOutcome.netError
          wstate).1.submissionStartedRef = false)) ∧
    (SubmitOutcome.netError = SubmitOutcome.ok ∨
        (SubmitOutcome.netError = SubmitOutcome.netError ∧ true = true) →
      (handleSubmitResponse true SubmitOutcome.netError
        wstate).1.testSubmitted = true ∧
      Action.navigateToResults ∈
        (handleSubmitResponse true SubmitOutcome.netError wstate).2) ∧
    (SubmitOutcome.netError = SubmitOutcome.serverFail ∨
        (SubmitOutcome.netError = SubmitOutcome.netError ∧ true = false) →
      (handleSubmitResponse true SubmitOutcome.netError wstate).1 =
        { wstate with isSubmitting := false, submissionStartedRef := false })) :=
  ⟨rfl, submit_failure_never_ambiguous true SubmitOutcome.netError wstate rfl⟩

theorem violation_threshold_machine_witness :
    wstate.warningCount = 0 ∧ wstate.isSubmitting = false ∧
    wstate.testSubmitted = false ∧ wstate.submissionStartedRef = false ∧
    (run wstate (List.replicate 1 Ev.focusLoss) =
      ({ wstate with warningCount := 1 },
       [Action.toastError ToastMsg.firstWarning]) ∧
    (run wstate (List.replicate 1 Ev.focusLoss)).1.testSubmitted = false ∧
    run wstate (List.replicate 2 Ev.focusLoss) =
      ({ wstate with warningCount := 2 },
       [Action.toastError ToastMsg.firstWarning,
        Action.toastError ToastMsg.finalWarning]) ∧
    run wstate (List.replicate 3 Ev.focusLoss) =
      ({ wstate with warningCount := 3, isSubmitting := true, submissionStartedRef := true },
       [Action.toastError ToastMsg.firstWarning,
        Action.toastError ToastMsg.finalWarning,
        Action.toastError ToastMsg.autoSubmitViolation,
        Action.submitCall
          (buildAnswersArray wstate.questions wstate.answers)]) ∧
    countSubmitCalls (run wstate (List.replicate 3 Ev.focusLoss)).2 = 1 ∧
    (∀ n : Nat, 3 ≤ n →
      run wstate (List.replicate n Ev.focusLoss) =
        run wstate (List.replicate 3 Ev.focusLoss)) ∧
    (∀ t : ControllerState, t.isSubmitting = true →
      handleVisibilityChange t = (t, []))) :=
  ⟨rfl, rfl, rfl, rfl,
    violation_threshold_machine wstate rfl rfl rfl rfl⟩

theorem timer_fires_exactly_once_witness :
    (1 : Int) ≤ 1 ∧
    ((∀ n : Nat, (ticks (initTimer 1) n).2 =
      if (1 : Int) ≤ (n : Int) then 1 else 0) ∧
    (ticks (initTimer 1) 1).1.timeLeft = 0 ∧
    (ticks (initTimer 1) 1).2 = 1 ∧
    (∀ d2 : Int, (initTimer d2).timeUpCalled = false)) :=
  ⟨by decide, timer_fires_exactly_once 1 (by decide)⟩

theorem manual_submit_zero_answers_witness :
    wempty.isSubmitting = false ∧ wempty.testSubmitted = false ∧
    wempty.submissionStartedRef = false ∧ wempty.answers = [] ∧
    (handleSubmitTest false true wempty =
      (wempty, [Action.toastError ToastMsg.pleaseAnswer]) ∧
    (handleSubmitTest true true wempty).2 =
      [Action.submitCall
        (wempty.questions.map (fun q => AnswerRec.mk (getQid q) "" 0))] ∧
    (handleSubmitTest true true wempty).1.testSubmitted = false ∧
    (handleSubmitTest true true wempty).1.submissionStartedRef = true ∧
    (handleSubmitTest true true wempty).1.isSubmitting = true) :=
  ⟨rfl, rfl, rfl, rfl, manual_submit_zero_answers wempty true rfl rfl rfl rfl⟩

theorem selectAnswer_upsert_overwrite_witness :
    wstate.currentQuestionIndex < wstate.questions.length ∧
    (lookupAnswer (handleAnswerSelect wstate "A" 1).answers
        (getQid wstate.questions[wstate.currentQuestionIndex]) =
      some (AnswerRec.mk
        (getQid wstate.questions[wstate.currentQuestionIndex]) "A" 1) ∧
    lookupAnswer
        (handleAnswerSelect (handleAnswerSelect wstate "A" 1) "B" 2).answers
        (getQid wstate.questions[wstate.currentQuestionIndex]) =
      some (AnswerRec.mk
        (getQid wstate.questions[wstate.currentQuestionIndex]) "B" 2) ∧
    (∀ q, q ≠ getQid wstate.questions[wstate.currentQuestionIndex] →
      lookupAnswer (handleAnswerSelect wstate "A" 1).answers q =
        lookupAnswer wstate.answers q) ∧
    (handleAnswerSelect wstate "A" 1).questions = wstate.questions ∧
    (handleAnswerSelect wstate "A" 1).currentQuestionIndex =
      wstate.currentQuestionIndex ∧
    (handleAnswerSelect wstate "A" 1).testSubmitted = wstate.testSubmitted ∧
    (handleAnswerSelect wstate "A" 1).isSubmitting = wstate.isSubmitting ∧
    (handleAnswerSelect wstate "A" 1).submissionStartedRef =
      wstate.submissionStartedRef ∧
    (handleAnswerSelect wstate "A" 1).timeUp = wstate.timeUp ∧
    (handleAnswerSelect wstate "A" 1).warningCount = wstate.warningCount) :=
  ⟨by decide, selectAnswer_upsert_overwrite wstate "A" "B" 1 2 (by decide)⟩

theorem navigate_cursor_only_witness :
    wstate.currentQuestionIndex < wstate.questions.length ∧
    ((handleQuestionJump wstate 5).answers = wstate.answers ∧
    (handleQuestionJump wstate 5).questions = wstate.questions ∧
    (handleQuestionJump wstate 5).currentQuestionIndex = 5 ∧
    (handleNext wstate).answers = wstate.answers ∧
    (handlePrevious wstate).answers = wstate.answers ∧
    (handleNext wstate).currentQuestionIndex < wstate.questions.length ∧
    (handlePrevious wstate).currentQuestionIndex < wstate.questions.length) :=
  ⟨by decide, navigate_cursor_only wstate 5 (by decide)⟩

theorem timer_timeleft_invariant_witness :
    (0 : Int) ≤ 3 ∧
    (0 ≤ (ticks (initTimer 3) 2).1.timeLeft ∧
    ((tick (ticks (initTimer 3) 2).1).1.timeLeft =
        (ticks (initTimer 3) 2).1.timeLeft - 1 ∨
      ((tick (ticks (initTimer 3) 2).1).1.timeLeft = 0 ∧
        (ticks (initTimer 3) 2).1.timeLeft = 0)) ∧
    ((ticks (initTimer 3) 2).1.timeLeft = 0 →
      ∀ m : Nat, (ticks (ticks (initTimer 3) 2).1 m).1.timeLeft = 0)) :=
  ⟨by decide, timer_timeleft_invariant 3 (by decide) 2⟩

end NeetTest
